import Mathlib

/-!
Verification of the resilient orchestration layer of the gmail-ai-processor
repository: the AI model fallback chain (`src/services/ai_service.py`), the
free-text response parser, the WhatsApp notification cascade
(`src/services/whatsapp_service.py`), the calendar duplicate check and time
normalization (`src/services/calendar_service.py`), the calendar agent batch
layer (`src/agents/calendar_agent.py`) and the per-item workflow coordinator
(`src/agents/coordinator_agent.py`).

External collaborators (the OpenAI completion endpoint, the HTTP transports,
the Google calendar API, SMTP) are modelled as explicit oracle parameters;
everything else is a direct translation of the Python source.  Python strings
are modelled as `String`, Python dicts produced by `json.loads` as ordered
association lists with last-write-wins insertion, machine clocks and
`time.sleep` pacing are omitted (they carry no decision logic).
-/

/-! ## String helpers (Python `in`, `find`, `rfind`, slicing) -/

/-- Curly brace characters, used when scanning raw AI responses. -/
def lbrace : Char := Char.ofNat 123

/-- Closing curly brace character. -/
def rbrace : Char := Char.ofNat 125

/-- `needle` occurs as a contiguous sublist of `hay` (Python `needle in hay`). -/
def subList (needle : List Char) : List Char → Bool
  | [] => needle.isEmpty
  | c :: cs => needle.isPrefixOf (c :: cs) || subList needle cs

/-- Python `needle in hay` on strings. -/
def strContains (hay needle : String) : Bool :=
  subList needle.data hay.data

/-- Index of the first occurrence of `c` (Python `str.find`, `none` for -1). -/
def firstIdx (c : Char) : List Char → Option Nat
  | [] => none
  | d :: ds => if d = c then some 0 else (firstIdx c ds).map (· + 1)

/-- Index of the last occurrence of `c` (Python `str.rfind`, `none` for -1). -/
def lastIdx (c : Char) : List Char → Option Nat
  | [] => none
  | d :: ds =>
    match lastIdx c ds with
    | some i => some (i + 1)
    | none => if d = c then some 0 else none

/-- Python whitespace as stripped by `str.strip`. -/
def isPySpace (c : Char) : Bool :=
  c = ' ' || c = '\t' || c = '\n' || c = '\r' || c = Char.ofNat 11 || c = Char.ofNat 12

/-- Python `str.strip()`. -/
def pyStrip (s : String) : String :=
  String.mk (((s.data.dropWhile isPySpace).reverse.dropWhile isPySpace).reverse)

/-- Python `str.lower()` (the sources only compare ASCII text). -/
def pyLower (s : String) : String := String.mk (s.data.map Char.toLower)

/-- Python `str.startswith`. -/
def pyStartsWith (s p : String) : Bool := p.data.isPrefixOf s.data

/-- Python `str.split(sep)` for a one-character separator. -/
def splitChar (c : Char) : List Char → List (List Char)
  | [] => [[]]
  | d :: ds =>
    let r := splitChar c ds
    if d = c then [] :: r
    else
      match r with
      | h :: t => (d :: h) :: t
      | [] => [[d]]

/-- Python truthiness-relevant blank test: `s.strip() == ""`. -/
def isBlank (s : String) : Bool := pyStrip s == ""

/-- Python `s[:n]` on strings. -/
def strTake (s : String) (n : Nat) : String := String.mk (s.data.take n)

/-! ## JSON values and a parser for `json.loads`

`_parse_ai_response` feeds the substring between the first opening and last
closing brace of the raw model output to `json.loads`.  The parser below
implements the JSON subset needed for the raw responses appearing in the
theorems (objects, arrays, strings with simple escapes, integers, booleans,
null); exotic inputs it cannot parse are conservatively treated as decode
errors, which selects the same fallback path the Python code takes on a
`JSONDecodeError`.  Duplicate keys follow `dict` semantics: first position,
last value. -/

inductive JsonValue where
  | null
  | bool (b : Bool)
  | num (n : Int)
  | str (s : String)
  | arr (xs : List JsonValue)
  | obj (fields : List (String × JsonValue))
deriving Repr

/-- Python `dict` insertion: overwrite the value of an existing key in place,
otherwise append the new binding. -/
def dinsert (k : String) (v : JsonValue) : List (String × JsonValue) → List (String × JsonValue)
  | [] => [(k, v)]
  | (k2, v2) :: rest => if k2 = k then (k2, v) :: rest else (k2, v2) :: dinsert k v rest

/-- Python `d.get(k)`: `none` when the key is absent. -/
def jlookup (fields : List (String × JsonValue)) (k : String) : Option JsonValue :=
  (fields.find? (fun p => p.1 == k)).map (fun p => p.2)

/-- Python truthiness of an optional JSON value (`None`, `False`, `0`, `""`,
`[]` and the empty object are falsy, a missing key is falsy). -/
def jtruthy : Option JsonValue → Bool
  | none => false
  | some JsonValue.null => false
  | some (JsonValue.bool b) => b
  | some (JsonValue.num n) => n != 0
  | some (JsonValue.str s) => s != ""
  | some (JsonValue.arr xs) => !xs.isEmpty
  | some (JsonValue.obj fs) => !fs.isEmpty

/-- Skip JSON whitespace. -/
def skipWs : List Char → List Char
  | [] => []
  | c :: cs => if c = ' ' || c = '\n' || c = '\t' || c = '\r' then skipWs cs else c :: cs

/-- Parse the body of a JSON string literal after the opening quote,
returning the decoded string and the remainder after the closing quote. -/
def pString (fuel : Nat) (cs : List Char) : Option (String × List Char) :=
  match fuel, cs with
  | 0, _ => none
  | _ + 1, [] => none
  | f + 1, c :: cs =>
    if c = '"' then some ("", cs)
    else if c = '\\' then
      match cs with
      | [] => none
      | e :: cs2 =>
        let ech : Option Char :=
          if e = '"' then some '"'
          else if e = '\\' then some '\\'
          else if e = '/' then some '/'
          else if e = 'n' then some '\n'
          else if e = 't' then some '\t'
          else if e = 'r' then some '\r'
          else none
        match ech with
        | none => none
        | some ch => (pString f cs2).map (fun p => (String.mk (ch :: p.1.data), p.2))
    else (pString f cs).map (fun p => (String.mk (c :: p.1.data), p.2))

/-- Parse a run of decimal digits. -/
def pDigits (fuel : Nat) (acc : Nat) (cs : List Char) : Option (Nat × List Char) :=
  match fuel, cs with
  | 0, _ => none
  | _ + 1, [] => some (acc, [])
  | f + 1, c :: rest =>
    if c.isDigit then pDigits f (acc * 10 + (c.toNat - 48)) rest
    else some (acc, c :: rest)

mutual

/-- Parse one JSON value. -/
def pVal (fuel : Nat) (cs : List Char) : Option (JsonValue × List Char) :=
  match fuel with
  | 0 => none
  | f + 1 =>
    match skipWs cs with
    | [] => none
    | c :: rest =>
      if c = '"' then (pString f rest).map (fun p => (JsonValue.str p.1, p.2))
      else if c = lbrace then
        match skipWs rest with
        | d :: rest2 =>
          if d = rbrace then some (JsonValue.obj [], rest2)
          else pMembers f (d :: rest2) []
        | [] => none
      else if c = '[' then
        match skipWs rest with
        | d :: rest2 =>
          if d = ']' then some (JsonValue.arr [], rest2)
          else pItems f (d :: rest2) []
        | [] => none
      else if ['t', 'r', 'u', 'e'].isPrefixOf (c :: rest) then
        some (JsonValue.bool true, (c :: rest).drop 4)
      else if ['f', 'a', 'l', 's', 'e'].isPrefixOf (c :: rest) then
        some (JsonValue.bool false, (c :: rest).drop 5)
      else if ['n', 'u', 'l', 'l'].isPrefixOf (c :: rest) then
        some (JsonValue.null, (c :: rest).drop 4)
      else if c = '-' then
        match pDigits f 0 rest with
        | some (n, rest2) => some (JsonValue.num (-(n : Int)), rest2)
        | none => none
      else if c.isDigit then
        match pDigits f (c.toNat - 48) rest with
        | some (n, rest2) => some (JsonValue.num (n : Int), rest2)
        | none => none
      else none

/-- Parse the members of a JSON object, starting at a key. -/
def pMembers (fuel : Nat) (cs : List Char) (acc : List (String × JsonValue)) :
    Option (JsonValue × List Char) :=
  match fuel with
  | 0 => none
  | f + 1 =>
    match skipWs cs with
    | [] => none
    | c :: rest =>
      if c = '"' then
        match pString f rest with
        | none => none
        | some (key, rest2) =>
          match skipWs rest2 with
          | ':' :: rest3 =>
            match pVal f rest3 with
            | none => none
            | some (v, rest4) =>
              let acc2 := dinsert key v acc
              match skipWs rest4 with
              | ',' :: rest5 => pMembers f rest5 acc2
              | d :: rest5 =>
                if d = rbrace then some (JsonValue.obj acc2, rest5) else none
              | [] => none
          | _ => none
      else none

/-- Parse the items of a JSON array, starting at a value. -/
def pItems (fuel : Nat) (cs : List Char) (acc : List JsonValue) :
    Option (JsonValue × List Char) :=
  match fuel with
  | 0 => none
  | f + 1 =>
    match pVal f cs with
    | none => none
    | some (v, rest) =>
      match skipWs rest with
      | ',' :: rest2 => pItems f rest2 (acc ++ [v])
      | ']' :: rest2 => some (JsonValue.arr (acc ++ [v]), rest2)
      | _ => none

end

/-- `json.loads` restricted to the object-shaped inputs `_parse_ai_response`
produces (the extracted substring always starts with an opening brace):
returns the object's fields, or `none` on a decode error.  Trailing
non-whitespace after the value is a decode error, as in `json.loads`. -/
def parseJsonObject (s : String) : Option (List (String × JsonValue)) :=
  match pVal (4 * s.data.length + 16) s.data with
  | some (JsonValue.obj fs, rest) => if (skipWs rest).isEmpty then some fs else none
  | _ => none

/-! ## Input items

`InputItem` of the data model: the email dict handed to the AI and calendar
layers.  The keys `subject`, `from` and `body` are present on every fetched
item (the fetch collaborator builds them unconditionally); `from` is named
`sender` here because `from` is reserved. -/

structure EmailData where
  subject : String
  sender : String
  body : String

/-! ## AnalysisFallbackEngine — `src/services/ai_service.py`

The OpenAI chat-completion collaborator is an oracle
`complete : String → CallOutcome` mapping the model name to either the
returned message content or the message of the raised exception.  The prompt
is a fixed function of the item and carries no decision logic, so it is not
threaded through the oracle. -/

inductive CallOutcome where
  | ok (content : String)
  | err (msg : String)
deriving Repr, DecidableEq

/-- Result of `_call_openai`: the returned content, the re-raised hard error,
or the final `All OpenAI models failed` exception carrying the last error. -/
inductive CallResult where
  | success (content : String)
  | hardError (msg : String)
  | exhausted (lastError : Option String)
deriving Repr, DecidableEq

/-- The fixed fallback model list of `_call_openai`. -/
def fallbackModels : List String :=
  ["gpt-4o", "gpt-4o-mini", "gpt-4-turbo", "gpt-4", "gpt-3.5-turbo"]

/-- Ordered candidate list: the configured model first (when set), then the
fallback models, skipping any already present (first-seen order kept). -/
def modelsToTry (aiModel : String) : List String :=
  let base := if aiModel ≠ "" then [aiModel] else []
  fallbackModels.foldl (fun acc m => if m ∈ acc then acc else acc ++ [m]) base

/-- Error classification of `_call_openai`: an exception whose lowercased
message contains `model_not_found` or `does not exist` is a soft
model-unavailable failure. -/
def isUnavailableError (msg : String) : Bool :=
  strContains (pyLower msg) "model_not_found" || strContains (pyLower msg) "does not exist"

/-- The per-candidate loop of `_call_openai`.  Blank content falls through to
the next candidate without touching `last_error`; an unavailable-classified
exception records itself as `last_error` and falls through; any other
exception is re-raised at once. -/
def callOpenaiLoop (complete : String → CallOutcome) :
    List String → Option String → CallResult
  | [], lastError => .exhausted lastError
  | m :: rest, lastError =>
    match complete m with
    | .ok content =>
      if isBlank content then callOpenaiLoop complete rest lastError
      else .success content
    | .err e =>
      if isUnavailableError e then callOpenaiLoop complete rest (some e)
      else .hardError e

/-- `_call_openai`: run the loop over the candidate list. -/
def callOpenai (aiModel : String) (complete : String → CallOutcome) : CallResult :=
  callOpenaiLoop complete (modelsToTry aiModel) none

/-- A completion outcome the loop skips: blank content or an
unavailable-classified error. -/
def isSoftOutcome : CallOutcome → Bool
  | .ok c => isBlank c
  | .err e => isUnavailableError e

/-- `_extract_summary_from_email`: sender/subject summary with the body
preview capped at 100 characters. -/
def extractSummaryFromEmail (e : EmailData) : String :=
  let bodyPreview := if e.body.data.length > 100 then strTake e.body 100 ++ "..." else e.body
  "Email from " ++ e.sender ++ " about \x27" ++ e.subject ++ "\x27: " ++ bodyPreview

/-- The `summary` expression of `_create_fallback_response`: the raw text
capped at 200 characters with an ellipsis when longer, the raw text itself
when non-empty and short, else the email summary. -/
def fallbackGist (email : EmailData) : Option String → String
  | some r =>
    if r != "" && r.data.length > 200 then strTake r 200 ++ "..."
    else if r != "" then r
    else extractSummaryFromEmail email
  | none => extractSummaryFromEmail email

/-- `_create_fallback_response`. -/
def createFallbackResponse (email : EmailData) (aiResponse : Option String) :
    List (String × JsonValue) :=
  [("gist", JsonValue.str (fallbackGist email aiResponse)),
   ("hasEvent", JsonValue.bool false),
   ("eventDetails", JsonValue.obj []),
   ("priority", JsonValue.str "medium"),
   ("actionItems", JsonValue.arr []),
   ("category", JsonValue.str "other")]

/-- The brace-extraction step of `_parse_ai_response`: the substring from the
first opening brace to the last closing brace, provided the end lies past the
start. -/
def extractJson (s : String) : Option String :=
  match firstIdx lbrace s.data, lastIdx rbrace s.data with
  | some i, some j =>
    if j + 1 > i then some (String.mk ((s.data.drop i).take (j + 1 - i))) else none
  | some _, none => none
  | none, _ => none

/-- `_parse_ai_response`: blank responses and extraction/decode failures take
the fallback path; a decoded object is returned as-is except that a missing or
falsy `gist` is backfilled from the email summary. -/
def parseAiResponse (aiResponse : String) (email : EmailData) :
    List (String × JsonValue) :=
  if isBlank aiResponse then createFallbackResponse email none
  else
    match extractJson aiResponse with
    | some js =>
      match parseJsonObject js with
      | some obj =>
        if jtruthy (jlookup obj "gist") then obj
        else dinsert "gist" (JsonValue.str (extractSummaryFromEmail email)) obj
      | none => createFallbackResponse email (some aiResponse)
    | none => createFallbackResponse email (some aiResponse)

/-- `process_email_with_ai`: any exception out of `_call_openai` (a hard error
or exhaustion of all candidates) is caught and replaced by the fixed error
dict; otherwise the raw content is parsed. -/
def processEmailWithAi (aiModel : String) (complete : String → CallOutcome)
    (email : EmailData) : List (String × JsonValue) :=
  match callOpenai aiModel complete with
  | .success content => parseAiResponse content email
  | .hardError _ =>
    [("gist", JsonValue.str ("Error processing email: " ++ email.subject)),
     ("hasEvent", JsonValue.bool false),
     ("eventDetails", JsonValue.obj [])]
  | .exhausted _ =>
    [("gist", JsonValue.str ("Error processing email: " ++ email.subject)),
     ("hasEvent", JsonValue.bool false),
     ("eventDetails", JsonValue.obj [])]

/-! ## CalendarReconciler — `src/services/calendar_service.py`

The Google calendar API is an oracle: `listEvents` maps a date to the
`summary` titles of that day's events (or to the message of a raised
exception), `insert` maps the event body to the created id (or to the message
of a raised exception).  `available` is `self.calendar_service is not None`. -/

structure EventDetails where
  title : Option String := none
  description : Option String := none
  startDate : Option String := none
  startTime : Option String := none
  endDate : Option String := none
  endTime : Option String := none
  location : Option String := none

/-- The event body handed to `events().insert`. -/
structure GEvent where
  summary : String
  description : String
  startDateTime : String
  endDateTime : String
  location : String
  reminderEmailMinutes : Nat
  reminderPopupMinutes : Nat

structure CalEnv where
  available : Bool
  listEvents : String → Except String (List String)
  insert : GEvent → Except String String

/-- `_event_exists`: no date means no match; a failed query is treated as no
match; otherwise any existing title equal (case-insensitively, trimmed) to the
requested one matches, and for requested titles longer than 10 characters a
substring containment either way also matches. -/
def eventExists (env : CalEnv) (eventTitle eventDate : String) : Bool :=
  if eventDate = "" then false
  else
    match env.listEvents eventDate with
    | .error _ => false
    | .ok titles =>
      titles.any fun t =>
        let existingTitle := pyLower (pyStrip t)
        let searchTitle := pyLower (pyStrip eventTitle)
        existingTitle == searchTitle ||
          (searchTitle.data.length > 10 &&
            (strContains existingTitle searchTitle || strContains searchTitle existingTitle))

/-- The sentinel list of `_create_single_event`'s time cleanup. -/
def timeSentinels : List String := ["Unknown", "", "unknown", "N/A", "NA"]

/-- The time cleanup of `_create_single_event` for one field: a missing value
takes the default, a falsy or sentinel value is replaced by the default, and a
value that does not split on a colon into exactly two pieces is replaced by
the default. -/
def normalizeTime (raw : Option String) (d : String) : String :=
  let t0 := raw.getD d
  let t1 := if t0 = "" || t0 ∈ timeSentinels then d else t0
  if (splitChar ':' t1.data).length ≠ 2 then d else t1

/-- `_create_single_event`: skip (and report success) when a matching event
already exists, otherwise normalize the times, build the event body with the
two default reminders and insert it; an insert exception is caught and
reported as `False`. -/
def createSingleEvent (env : CalEnv) (ev : EventDetails) (email : EmailData) : Bool :=
  let eventTitle := ev.title.getD "Event from Email"
  let eventDate := ev.startDate.getD ""
  if eventExists env eventTitle eventDate then true
  else
    let startTime := normalizeTime ev.startTime "07:00"
    let endTime := normalizeTime ev.endTime "08:00"
    let startDT := (ev.startDate.getD "") ++ "T" ++ startTime ++ ":00"
    let endDT := (ev.endDate.getD (ev.startDate.getD "")) ++ "T" ++ endTime ++ ":00"
    let g : GEvent :=
      { summary := ev.title.getD "Event from Email"
        description := ev.description.getD "" ++ "\n\nSource Email: " ++ email.subject
          ++ "\nFrom: " ++ email.sender
        startDateTime := startDT
        endDateTime := endDT
        location := ev.location.getD ""
        reminderEmailMinutes := 24 * 60
        reminderPopupMinutes := 10 }
    match env.insert g with
    | .ok _ => true
    | .error _ => false

/-- `create_calendar_event` of the service for a single (dict-shaped) event
request: `False` when the calendar client is unavailable, else
`_create_single_event`.  On every call path reached from the agents below the
argument is a single dict, so the list branch of the Python function is not
exercised here. -/
def serviceCreateCalendarEvent (env : CalEnv) (ev : EventDetails) (email : EmailData) : Bool :=
  if env.available then createSingleEvent env ev email else false

/-! ## Calendar agent — `src/agents/calendar_agent.py` -/

/-- Result dict of the agent's `create_calendar_event` for a dict request:
the service call never raises (it catches every exception internally), so the
agent's own except-branch is unreachable and `success` is unconditionally
`True`; the service's boolean lands only in the `calendar_result` key. -/
structure AgentItemResult where
  success : Bool
  calendarResult : Bool

/-- The agent's `create_calendar_event` on a dict-shaped request. -/
def agentCreateEventD (env : CalEnv) (ev : EventDetails) (email : EmailData) :
    AgentItemResult :=
  { success := true, calendarResult := serviceCreateCalendarEvent env ev email }

/-- One entry of the `results` list of `create_multiple_events`. -/
structure BatchItem where
  index : Nat
  success : Bool
  title : String

/-- Result dict of `create_multiple_events`. -/
structure BatchResult where
  success : Bool
  totalEvents : Nat
  successful : Nat
  failed : Nat
  results : List BatchItem

/-- The loop of `create_multiple_events`.  A `None` entry makes the agent's
`create_calendar_event` raise in its `log_action` call (before its try
block); the loop's own except-handler then evaluates
`event_details.get("title", "Untitled")` on the same `None` and raises again,
so the exception escapes the loop. -/
def cmeLoop (env : CalEnv) (email : EmailData) :
    List (Option EventDetails) → Nat → List BatchItem → Nat →
    Except String (List BatchItem × Nat)
  | [], _, acc, succ => .ok (acc, succ)
  | none :: _, _, _, _ =>
    .error "AttributeError: \x27NoneType\x27 object has no attribute \x27get\x27"
  | some d :: rest, i, acc, succ =>
    let r := agentCreateEventD env d email
    cmeLoop env email rest (i + 1)
      (acc ++ [{ index := i, success := r.success, title := d.title.getD "Untitled" }])
      (succ + (if r.success then 1 else 0))

/-- `create_multiple_events`: overall success iff at least one per-item
success; `failed` is the total minus the successes. -/
def createMultipleEvents (env : CalEnv) (events : List (Option EventDetails))
    (email : EmailData) : Except String BatchResult :=
  (cmeLoop env email events 0 [] 0).map fun p =>
    { success := decide (0 < p.2)
      totalEvents := events.length
      successful := p.2
      failed := events.length - p.2
      results := p.1 }

/-- Shape of the `eventDetails` value of an analysis result as classified by
`process_ai_events`: a list of events (entries may be `None`), a non-empty
dict, or anything else (`None`, an empty dict, a string, ...). -/
inductive EDField where
  | invalid
  | single (e : EventDetails)
  | many (evs : List (Option EventDetails))

/-- The analysis-agent result dict as consumed by the coordinator and the
calendar agent: the `success` flag, the truthiness of `hasEvent`, and the
shape of `eventDetails`. -/
structure AnalysisResultD where
  success : Bool
  hasEvent : Bool
  eventDetails : EDField

/-- Result dict of `process_ai_events` as consumed by the coordinator: the
`success` flag and the optional `events_created` key (`none` when the branch
taken returns a dict without that key); `successful` is the batch counter
when the list branch ran. -/
structure PAEResult where
  success : Bool
  eventsCreated : Option Nat
  successful : Option Nat

/-- `process_ai_events`: nothing to do without an event; a list goes through
`create_multiple_events` (whose escaping exception is caught here); a
non-empty dict goes through the agent's `create_calendar_event`; anything
else is an invalid format.  Only the no-event and failure dicts carry an
`events_created` key. -/
def processAiEvents (env : CalEnv) (a : AnalysisResultD) (email : EmailData) : PAEResult :=
  if !a.hasEvent then { success := true, eventsCreated := some 0, successful := none }
  else
    match a.eventDetails with
    | .many evs =>
      match createMultipleEvents env evs email with
      | .ok b => { success := b.success, eventsCreated := none, successful := some b.successful }
      | .error _ => { success := false, eventsCreated := some 0, successful := none }
    | .single d =>
      let r := agentCreateEventD env d email
      { success := r.success, eventsCreated := none, successful := none }
    | .invalid => { success := false, eventsCreated := some 0, successful := none }

/-! ## NotificationCascade — `src/services/whatsapp_service.py`

The transports are oracles: `twilioSend` is the outcome of
`twilio_client.messages.create` (which either succeeds or raises),
`cmbResponse` maps a (phone, api-key) pair to the HTTP response of the
CallMeBot GET (or to the message of a raised network exception), and
`smtpSend` is the outcome of the SMTP session of the email fallback.
Credentials are strings with Python truthiness (unset = `""`). -/

structure WaConfig where
  twilioSid : String
  twilioAuthToken : String
  cmbKey : String
  cmbPhone : String
  cmbKey2 : String
  cmbPhone2 : String
  gmailUser : String
  gmailPassword : String

structure HttpResponse where
  status : Nat
  text : String

structure WaEnv where
  twilioSend : Except String Unit
  cmbResponse : String → String → Except String HttpResponse
  smtpSend : Except String Unit

/-- `_send_via_twilio`: returns `True` on success; any API exception
propagates to the caller.  There is no return path yielding `False`. -/
def sendViaTwilio (env : WaEnv) : Except String Bool :=
  match env.twilioSend with
  | .ok _ => .ok true
  | .error e => .error e

/-- `_send_via_callmebot`: prefix the phone number with a plus sign when
missing, classify the HTTP response; a network exception is caught and
reported as `False`. -/
def sendViaCallmebot (env : WaEnv) (phoneNumber apiKey : String) : Bool :=
  let phone := if pyStartsWith phoneNumber "+" then phoneNumber else "+" ++ phoneNumber
  match env.cmbResponse phone apiKey with
  | .error _ => false
  | .ok resp =>
    let t := pyStrip resp.text
    if strContains t "Account is" && strContains t "Paused" then false
    else if resp.status = 200 || resp.status = 210 then
      if strContains t "Message queued" || strContains t "messages was added into the queue" then
        true
      else if strContains t "Account is" && strContains t "Paused" then false
      else if pyStartsWith t "<" && strContains t "Message to:" then true
      else false
    else false

/-- `_send_email_fallback`: `False` without Gmail credentials, else the
outcome of the SMTP session (an SMTP exception is caught as `False`). -/
def sendEmailFallback (cfg : WaConfig) (env : WaEnv) : Bool :=
  if cfg.gmailUser = "" || cfg.gmailPassword = "" then false
  else
    match env.smtpSend with
    | .ok _ => true
    | .error _ => false

/-- The CallMeBot tier and email fallback of `send_whatsapp_message`: attempt
every configured credential/number pair, report success when at least one
attempt succeeded, otherwise fall back to the self-addressed email. -/
def cmbTier (cfg : WaConfig) (env : WaEnv) : Bool :=
  let s1 :=
    if cfg.cmbKey ≠ "" && cfg.cmbPhone ≠ "" then
      if sendViaCallmebot env cfg.cmbPhone cfg.cmbKey then 1 else 0
    else 0
  let s2 :=
    if cfg.cmbKey2 ≠ "" && cfg.cmbPhone2 ≠ "" then
      if sendViaCallmebot env cfg.cmbPhone2 cfg.cmbKey2 then 1 else 0
    else 0
  if s1 + s2 > 0 then true else sendEmailFallback cfg env

/-- `send_whatsapp_message`: try Twilio first when configured; the only
statement inside the try block that can raise is the Twilio send, and the
surrounding except-handler goes straight to the email fallback.  The branch
falling from a `False` Twilio result into the CallMeBot tier is kept for
structural fidelity although `_send_via_twilio` never returns `False`. -/
def sendWhatsappMessage (cfg : WaConfig) (env : WaEnv) : Bool :=
  if cfg.twilioSid ≠ "" && (cfg.twilioSid ≠ "" && cfg.twilioAuthToken ≠ "") then
    match sendViaTwilio env with
    | .ok b => if b then true else cmbTier cfg env
    | .error _ => sendEmailFallback cfg env
  else cmbTier cfg env

/-! ## WorkflowCoordinator — `src/agents/coordinator_agent.py`

The analysis and notification agents catch every exception internally and
return result dicts, so at the coordinator's boundary they are total
functions: `analyze` is `analysis_agent.execute` (the `success` flag, the
truthiness of `hasEvent` and the shape of `eventDetails` of its result dict),
`notify` is the `success` flag of `notification_agent.execute`.  The
wall-clock fields of the stats dict and the fixed 2-second pacing sleep are
omitted.  Fetching is the email agent's concern; runs are modelled from the
fetched item list on. -/

structure Stats where
  emailsProcessed : Nat
  eventsCreated : Nat
  notificationsSent : Nat
  errors : Nat

structure CoordEnv where
  analyze : EmailData → AnalysisResultD
  notify : EmailData → AnalysisResultD → Bool
  cal : CalEnv

/-- Per-item result dict of `process_single_email` (the fields the run loop
and the claims consume). -/
structure ItemResult where
  success : Bool
  notification : Option Bool
  calendar : Option PAEResult

/-- `process_single_email`: an analysis failure returns a failed item result
at once (no notification or calendar step); otherwise the notification step
runs when requested (its success bumps the notifications counter) and the
calendar step runs when requested and an event was found (its success bumps
the events counter by the `events_created` value of its result dict,
defaulting to 0 when the key is absent). -/
def processSingleEmail (env : CoordEnv) (email : EmailData)
    (sendNotification createEvent : Bool) (st : Stats) : ItemResult × Stats :=
  let a := env.analyze email
  if !a.success then
    ({ success := false, notification := none, calendar := none }, st)
  else
    let notifRes : Option Bool := if sendNotification then some (env.notify email a) else none
    let st1 :=
      if notifRes = some true then
        { st with notificationsSent := st.notificationsSent + 1 }
      else st
    let calRes : Option PAEResult :=
      if createEvent && a.hasEvent then some (processAiEvents env.cal a email) else none
    let st2 :=
      match calRes with
      | some c =>
        if c.success then
          { st1 with eventsCreated := st1.eventsCreated + c.eventsCreated.getD 0 }
        else st1
      | none => st1
    ({ success := true, notification := notifRes, calendar := calRes }, st2)

/-- The per-item loop of `process_all_emails`: items strictly in fetch order,
each item's success bumping the processed counter and each failure bumping
the error counter; `process_single_email` is total, so the loop's own
except-branch is unreachable. -/
def runLoop (env : CoordEnv) (sendNotifications createEvents : Bool) :
    List EmailData → List ItemResult → Stats → List ItemResult × Stats
  | [], acc, st => (acc, st)
  | e :: rest, acc, st =>
    let p := processSingleEmail env e sendNotifications createEvents st
    let st2 :=
      if p.1.success then { p.2 with emailsProcessed := p.2.emailsProcessed + 1 }
      else { p.2 with errors := p.2.errors + 1 }
    runLoop env sendNotifications createEvents rest (acc ++ [p.1]) st2

/-- Aggregate result of `process_all_emails` over a non-empty fetched list. -/
structure RunResult where
  success : Bool
  emailsProcessed : Nat
  totalEmails : Nat
  results : List ItemResult

/-- `process_all_emails` from the point where the fetched item list is in
hand: run the loop, then report the successful count and the per-item
results. -/
def processAllEmails (env : CoordEnv) (emails : List EmailData)
    (sendNotifications createEvents : Bool) (st : Stats) : RunResult × Stats :=
  let p := runLoop env sendNotifications createEvents emails [] st
  ({ success := true
     emailsProcessed := (p.1.filter (fun r => r.success)).length
     totalEmails := emails.length
     results := p.1 }, p.2)

/-! ## Helper lemmas -/

/-- Soft outcomes (blank content, unavailable-classified errors) at the front
of the candidate list only advance the loop, possibly updating the recorded
last error. -/
theorem callOpenaiLoop_append_soft (complete : String → CallOutcome) :
    ∀ (pre : List String), (∀ y ∈ pre, isSoftOutcome (complete y) = true) →
      ∀ (rest : List String) (le : Option String),
        ∃ le2, callOpenaiLoop complete (pre ++ rest) le = callOpenaiLoop complete rest le2 := by
  intro pre
  induction pre with
  | nil => intro _ rest le; exact ⟨le, rfl⟩
  | cons m ms ih =>
    intro h rest le
    have hm : isSoftOutcome (complete m) = true := h m (List.mem_cons_self m ms)
    have hms : ∀ y ∈ ms, isSoftOutcome (complete y) = true := fun y hy =>
      h y (List.mem_cons_of_mem m hy)
    simp only [List.cons_append, callOpenaiLoop]
    cases hcm : complete m with
    | ok content =>
      have : isBlank content = true := by
        simpa [isSoftOutcome, hcm] using hm
      simp only [this, if_true]
      exact ih hms rest le
    | err e =>
      have : isUnavailableError e = true := by
        simpa [isSoftOutcome, hcm] using hm
      simp only [this, if_true]
      exact ih hms rest (some e)

/-- Claim C1: over the ordered candidate list (configured model first, then
the deduplicated fixed fallback list), `_call_openai` returns the raw content
of the first candidate producing non-blank content, provided every earlier
candidate failed softly (blank content or an unavailable-classified error);
and when a candidate fails with any other error after only soft failures, the
call aborts at once with that error, never consulting later candidates. -/
theorem callOpenai_fallback_policy (aiModel : String)
    (complete : String → CallOutcome) (pre : List String) (x : String)
    (post : List String) (hsplit : modelsToTry aiModel = pre ++ x :: post)
    (hpre : ∀ y ∈ pre, isSoftOutcome (complete y) = true) :
    (∀ c, complete x = CallOutcome.ok c → isBlank c = false →
      callOpenai aiModel complete = CallResult.success c) ∧
    (∀ e, complete x = CallOutcome.err e → isUnavailableError e = false →
      callOpenai aiModel complete = CallResult.hardError e) := by
  obtain ⟨le2, hle2⟩ := callOpenaiLoop_append_soft complete pre hpre (x :: post) none
  constructor
  · intro c hc hblank
    unfold callOpenai
    rw [hsplit, hle2]
    simp [callOpenaiLoop, hc, hblank]
  · intro e he hun
    unfold callOpenai
    rw [hsplit, hle2]
    simp [callOpenaiLoop, he, hun]

/-- Concrete completion oracle for the C1 witness: the configured model is
reported unavailable, `gpt-4o` answers, later models would answer blank. -/
def completeC1 : String → CallOutcome := fun m =>
  if m = "my-model" then CallOutcome.err "Error code: 404 - model_not_found"
  else if m = "gpt-4o" then CallOutcome.ok "analysis text"
  else CallOutcome.ok ""

/-- Witness for C1: with the configured model unavailable, the call returns
the content of the first fallback model. -/
theorem callOpenai_fallback_policy_witness :
    callOpenai "my-model" completeC1 = CallResult.success "analysis text" :=
  (callOpenai_fallback_policy "my-model" completeC1 ["my-model"] "gpt-4o"
    ["gpt-4o-mini", "gpt-4-turbo", "gpt-4", "gpt-3.5-turbo"] (by decide)
    (by
      intro y hy
      have hy2 : y = "my-model" := by simpa using hy
      subst hy2
      decide)).1 "analysis text" (by decide) (by decide)

/-- The per-item success flag equals the analysis success flag: notification
and calendar sub-outcomes never change it. -/
theorem processSingleEmail_success (env : CoordEnv) (e : EmailData) (n c : Bool)
    (st : Stats) :
    (processSingleEmail env e n c st).1.success = (env.analyze e).success := by
  cases h : (env.analyze e).success <;>
    simp [processSingleEmail, h]

/-- `process_single_email` never touches the error counter. -/
theorem processSingleEmail_errors (env : CoordEnv) (e : EmailData) (n c : Bool)
    (st : Stats) :
    (processSingleEmail env e n c st).2.errors = st.errors := by
  cases h : (env.analyze e).success <;>
    simp only [processSingleEmail, h, Bool.not_true, Bool.not_false, Bool.false_eq_true,
      if_false, if_true] <;>
    (repeat' split) <;> rfl

/-- `process_single_email` never touches the processed counter. -/
theorem processSingleEmail_processed (env : CoordEnv) (e : EmailData) (n c : Bool)
    (st : Stats) :
    (processSingleEmail env e n c st).2.emailsProcessed = st.emailsProcessed := by
  cases h : (env.analyze e).success <;>
    simp only [processSingleEmail, h, Bool.not_true, Bool.not_false, Bool.false_eq_true,
      if_false, if_true] <;>
    (repeat' split) <;> rfl

/-- Claim C2: over four fetched items whose third analysis fails hard while
the others succeed, the run yields four per-item results with exactly the
third marked failed, bumps the error counter once, and bumps the processed
counter only for the three non-failed items. -/
theorem processAllEmails_isolates_failure (env : CoordEnv)
    (e1 e2 e3 e4 : EmailData) (n c : Bool) (st : Stats)
    (h1 : (env.analyze e1).success = true) (h2 : (env.analyze e2).success = true)
    (h3 : (env.analyze e3).success = false) (h4 : (env.analyze e4).success = true) :
    ((processAllEmails env [e1, e2, e3, e4] n c st).1.results.map
        (fun r => r.success) = [true, true, false, true]) ∧
    (processAllEmails env [e1, e2, e3, e4] n c st).1.totalEmails = 4 ∧
    (processAllEmails env [e1, e2, e3, e4] n c st).1.emailsProcessed = 3 ∧
    (processAllEmails env [e1, e2, e3, e4] n c st).2.errors = st.errors + 1 ∧
    (processAllEmails env [e1, e2, e3, e4] n c st).2.emailsProcessed =
      st.emailsProcessed + 3 := by
  simp only [processAllEmails, runLoop, processSingleEmail_success, h1, h2, h3, h4,
    if_true, if_false, Bool.false_eq_true, List.nil_append, List.append_assoc,
    List.cons_append, List.map, List.filter, List.length, processSingleEmail_errors,
    processSingleEmail_processed, List.length_cons, List.length_nil]
  refine ⟨trivial, trivial, trivial, ?_, ?_⟩ <;>
    simp [processSingleEmail_errors, processSingleEmail_processed]

/-- A calendar environment whose queries return no events and whose inserts
succeed. -/
def calEnvOk : CalEnv :=
  { available := true, listEvents := fun _ => .ok [], insert := fun _ => .ok "event-id" }

/-- Concrete coordinator environment for the C2 witness: analysis fails hard
exactly on the item with subject `E3`. -/
def coordEnvC2 : CoordEnv :=
  { analyze := fun e =>
      if e.subject = "E3" then { success := false, hasEvent := false, eventDetails := .invalid }
      else { success := true, hasEvent := false, eventDetails := .invalid }
    notify := fun _ _ => true
    cal := calEnvOk }

/-- Concrete fetched item for the C2 witness. -/
def emC2 (s : String) : EmailData := { subject := s, sender := "school@x.com", body := "b" }

/-- Witness for C2 at a concrete run of four items whose third analysis
fails. -/
theorem processAllEmails_isolates_failure_witness :
    ((processAllEmails coordEnvC2 [emC2 "E1", emC2 "E2", emC2 "E3", emC2 "E4"]
        true true ⟨0, 0, 0, 0⟩).1.results.map (fun r => r.success) =
      [true, true, false, true]) ∧
    (processAllEmails coordEnvC2 [emC2 "E1", emC2 "E2", emC2 "E3", emC2 "E4"]
        true true ⟨0, 0, 0, 0⟩).1.totalEmails = 4 ∧
    (processAllEmails coordEnvC2 [emC2 "E1", emC2 "E2", emC2 "E3", emC2 "E4"]
        true true ⟨0, 0, 0, 0⟩).1.emailsProcessed = 3 ∧
    (processAllEmails coordEnvC2 [emC2 "E1", emC2 "E2", emC2 "E3", emC2 "E4"]
        true true ⟨0, 0, 0, 0⟩).2.errors = 0 + 1 ∧
    (processAllEmails coordEnvC2 [emC2 "E1", emC2 "E2", emC2 "E3", emC2 "E4"]
        true true ⟨0, 0, 0, 0⟩).2.emailsProcessed = 0 + 3 :=
  processAllEmails_isolates_failure coordEnvC2 (emC2 "E1") (emC2 "E2") (emC2 "E3")
    (emC2 "E4") true true ⟨0, 0, 0, 0⟩ (by decide) (by decide) (by decide) (by decide)

/-- Appending to a non-empty string stays non-empty. -/
theorem strAppend_ne_empty_left (a b : String) (ha : a ≠ "") : a ++ b ≠ "" := by
  intro h
  apply ha
  apply String.ext
  have hd := congrArg String.data h
  rw [String.data_append] at hd
  have := List.append_eq_nil.mp hd
  simpa using this.1

/-- The email summary always starts with the fixed prefix text, hence is
never empty. -/
theorem extractSummaryFromEmail_ne_empty (e : EmailData) :
    extractSummaryFromEmail e ≠ "" := by
  unfold extractSummaryFromEmail
  apply strAppend_ne_empty_left
  apply strAppend_ne_empty_left
  apply strAppend_ne_empty_left
  apply strAppend_ne_empty_left
  apply strAppend_ne_empty_left
  decide

/-- Looking up a freshly inserted key yields the inserted value. -/
theorem jlookup_dinsert (k : String) (v : JsonValue) :
    ∀ fs, jlookup (dinsert k v fs) k = some v := by
  intro fs
  induction fs with
  | nil => simp [dinsert, jlookup]
  | cons p rest ih =>
    obtain ⟨k2, v2⟩ := p
    by_cases hk : k2 = k
    · simp [dinsert, hk, jlookup]
    · have hbeq : (k2 == k) = false := beq_eq_false_iff_ne.mpr hk
      simp only [dinsert, hk, if_false]
      simpa [jlookup, List.find?, hbeq] using ih

/-- A raw model response whose decoded object reports an event with empty
details (well-formed JSON the model is free to produce). -/
def rawC3 : String :=
  "\x7b\"gist\": \"ok\", \"hasEvent\": true, \"eventDetails\": \x7b\x7d\x7d"

/-- Concrete email for the C3 counterexample. -/
def emC3 : EmailData := { subject := "Sports Day", sender := "school@x.com", body := "b" }

/-- Counterexample to C3 as stated: `_parse_ai_response` passes a decoded
object through unvalidated, so a raw response can yield `hasEvent = true`
together with empty `eventDetails`. -/
theorem parseAiResponse_event_invariant_counterexample :
    jlookup (parseAiResponse rawC3 emC3) "hasEvent" = some (JsonValue.bool true) ∧
    jlookup (parseAiResponse rawC3 emC3) "eventDetails" = some (JsonValue.obj []) :=
  ⟨rfl, rfl⟩

/-- The response does not decode to an object: it is blank, has no brace pair,
or fails `json.loads`. -/
def aiParseFailed (ai : String) : Bool :=
  if isBlank ai then true
  else
    match extractJson ai with
    | some js => (parseJsonObject js).isNone
    | none => true

/-- Claim C3 (amended): the decoded object is returned with its fields
unvalidated, so `hasEvent = true` with empty `eventDetails` is possible
(see the counterexample); the invariant does hold on every non-decoded path:
whenever the raw response is blank or fails JSON extraction or decoding, the
returned result has `hasEvent = false` and empty `eventDetails`. -/
theorem parseAiResponse_fallback_event_invariant (ai : String) (email : EmailData)
    (h : aiParseFailed ai = true) :
    jlookup (parseAiResponse ai email) "hasEvent" = some (JsonValue.bool false) ∧
    jlookup (parseAiResponse ai email) "eventDetails" = some (JsonValue.obj []) := by
  by_cases hb : isBlank ai
  · simp only [parseAiResponse, hb, if_true]
    exact ⟨rfl, rfl⟩
  · simp only [Bool.not_eq_true] at hb
    cases hej : extractJson ai with
    | none =>
      simp only [parseAiResponse, hb, Bool.false_eq_true, if_false, hej]
      exact ⟨rfl, rfl⟩
    | some js =>
      cases hpj : parseJsonObject js with
      | none =>
        simp only [parseAiResponse, hb, Bool.false_eq_true, if_false, hej, hpj]
        exact ⟨rfl, rfl⟩
      | some obj =>
        exfalso
        simp [aiParseFailed, hb, hej, hpj] at h

/-- Witness for the amended C3 at a raw response with no JSON in it. -/
theorem parseAiResponse_fallback_event_invariant_witness :
    aiParseFailed "no json here" = true ∧
    (jlookup (parseAiResponse "no json here" emC3) "hasEvent" =
        some (JsonValue.bool false) ∧
      jlookup (parseAiResponse "no json here" emC3) "eventDetails" =
        some (JsonValue.obj [])) :=
  ⟨rfl, parseAiResponse_fallback_event_invariant "no json here" emC3 rfl⟩

/-- Appending a non-empty string stays non-empty. -/
theorem strAppend_ne_empty_right (a b : String) (hb : b ≠ "") : a ++ b ≠ "" := by
  intro h
  apply hb
  apply String.ext
  have hd := congrArg String.data h
  rw [String.data_append] at hd
  have := List.append_eq_nil.mp hd
  simpa using this.2

/-- A non-blank string is non-empty. -/
theorem ne_empty_of_not_blank (s : String) (h : isBlank s = false) : s ≠ "" := by
  intro he
  rw [he] at h
  exact absurd h (by decide)

/-- A raw model response that decodes fine but carries no `gist` key. -/
def rawC9 : String := "\x7b\"hasEvent\": false\x7d"

/-- Concrete email for the C9 counterexample. -/
def emC9 : EmailData := { subject := "Trip", sender := "teacher@x.com", body := "Some body" }

/-- The email summary the code produces for `emC9`. -/
def summaryC9 : String := "Email from teacher@x.com about \x27Trip\x27: Some body"

/-- Counterexample to C9 as stated: on a missing `gist` field the code
backfills from the sender/subject/body summary even though the raw text is
non-empty, not from the truncated raw text. -/
theorem parse_missing_gist_counterexample :
    jlookup (parseAiResponse rawC9 emC9) "gist" = some (JsonValue.str summaryC9) ∧
    rawC9 ≠ "" ∧ summaryC9 ≠ rawC9 ∧ summaryC9 ≠ strTake rawC9 200 ++ "..." :=
  ⟨rfl, by decide, by decide, by decide⟩

/-- The raw response decodes to an object whose `gist` field is present and
truthy (so `_parse_ai_response` returns the object as-is). -/
def parsedGistTruthy (ai : String) : Bool :=
  if isBlank ai then false
  else
    match extractJson ai with
    | some js =>
      match parseJsonObject js with
      | some obj => jtruthy (jlookup obj "gist")
      | none => false
    | none => false

/-- Claim C9 (amended): whenever the raw response does not decode to an
object with a truthy `gist` (blank response, no JSON found, decode error, or
a missing/falsy `gist` field), the returned `gist` is a non-empty string: the
raw text (capped at 200 characters with an ellipsis) on the no-JSON and
decode-error paths, and the sender/subject/body summary (body preview capped
at 100 characters) on the blank-response and missing-gist paths. -/
theorem parseAiResponse_gist_nonempty (ai : String) (email : EmailData)
    (h : parsedGistTruthy ai = false) :
    ∃ g : String, jlookup (parseAiResponse ai email) "gist" = some (JsonValue.str g) ∧
      g ≠ "" := by
  by_cases hb : isBlank ai
  · simp only [parseAiResponse, hb, if_true]
    exact ⟨extractSummaryFromEmail email, rfl, extractSummaryFromEmail_ne_empty email⟩
  · simp only [Bool.not_eq_true] at hb
    have hne : ai ≠ "" := ne_empty_of_not_blank ai hb
    have hfb : ∃ g : String,
        jlookup (createFallbackResponse email (some ai)) "gist" =
          some (JsonValue.str g) ∧ g ≠ "" := by
      refine ⟨fallbackGist email (some ai), rfl, ?_⟩
      unfold fallbackGist
      by_cases hlong : (ai != "" && decide (ai.data.length > 200)) = true
      · simp only [hlong, if_true]
        exact strAppend_ne_empty_right _ _ (by decide)
      · simp only [Bool.not_eq_true] at hlong
        simp only [hlong, Bool.false_eq_true, if_false]
        simpa [bne_iff_ne, hne] using hne
    cases hej : extractJson ai with
    | none =>
      simp only [parseAiResponse, hb, Bool.false_eq_true, if_false, hej]
      exact hfb
    | some js =>
      cases hpj : parseJsonObject js with
      | none =>
        simp only [parseAiResponse, hb, Bool.false_eq_true, if_false, hej, hpj]
        exact hfb
      | some obj =>
        have hgf : jtruthy (jlookup obj "gist") = false := by
          simpa [parsedGistTruthy, hb, hej, hpj] using h
        simp only [parseAiResponse, hb, Bool.false_eq_true, if_false, hej, hpj, hgf]
        exact ⟨extractSummaryFromEmail email, jlookup_dinsert _ _ obj,
          extractSummaryFromEmail_ne_empty email⟩

/-- Witness for the amended C9 at the raw response missing its `gist`. -/
theorem parseAiResponse_gist_nonempty_witness :
    parsedGistTruthy rawC9 = false ∧
    ∃ g : String, jlookup (parseAiResponse rawC9 emC9) "gist" =
        some (JsonValue.str g) ∧ g ≠ "" :=
  ⟨rfl, parseAiResponse_gist_nonempty rawC9 emC9 rfl⟩

/-- Calendar environment for C4: one existing event titled `Sports Day
Celebration` on 2024-05-01, and an insert that raises. -/
def calEnvC4 : CalEnv :=
  { available := true
    listEvents := fun d =>
      if d = "2024-05-01" then .ok ["Sports Day Celebration"] else .ok []
    insert := fun _ => .error "API error" }

/-- The C4 event request as stated by the claim. -/
def evSportsDay : EventDetails := { title := some "Sports Day", startDate := some "2024-05-01" }

/-- A request title that is longer than 10 characters and contained in the
existing title. -/
def evSportsDayCele : EventDetails :=
  { title := some "Sports Day Cele", startDate := some "2024-05-01" }

/-- Concrete email for C4. -/
def emC4 : EmailData := { subject := "Sports Day", sender := "school@x.com", body := "b" }

/-- Counterexample to C4 as stated: `Sports Day` has trimmed length exactly
10, so the substring rule (which requires strictly more than 10 characters)
does not fire, `_event_exists` reports no match, and creation is attempted
(and here fails), rather than being skipped as success. -/
theorem sportsDay_dedup_counterexample :
    eventExists calEnvC4 "Sports Day" "2024-05-01" = false ∧
    createSingleEvent calEnvC4 evSportsDay emC4 = false ∧
    ("Sports Day".data.length > 10) = False :=
  ⟨rfl, rfl, by simp⟩

/-- Claim C4 (amended): the requested title `Sports Day` (trimmed length
exactly 10, not more) is not classified as a match against the existing
`Sports Day Celebration`, so creation is attempted; a requested title of
trimmed length greater than 10 contained in the existing title (for example
`Sports Day Cele`) is classified as a match and creation is skipped and
reported as success, whatever the insert would do. -/
theorem sportsDay_dedup_amended :
    "Sports Day".data.length = 10 ∧
    eventExists calEnvC4 "Sports Day" "2024-05-01" = false ∧
    "Sports Day Cele".data.length > 10 ∧
    eventExists calEnvC4 "Sports Day Cele" "2024-05-01" = true ∧
    (∀ ins : GEvent → Except String String,
      createSingleEvent { calEnvC4 with insert := ins } evSportsDayCele emC4 = true) :=
  ⟨by decide, rfl, by decide, rfl, fun _ => rfl⟩

/-- Modelled from the spec's words: a string of `HH:MM` shape (two digits, a
colon, two digits).  Used only to compare the spec's shape requirement with
the code's colon-count check. -/
def specHHMMShape (s : String) : Bool :=
  match s.data with
  | [h1, h2, c, m1, m2] => h1.isDigit && h2.isDigit && c = ':' && m1.isDigit && m2.isDigit
  | _ => false

/-- Counterexample to C8 as stated: `ab:cd` is not of `HH:MM` shape, yet the
code's cleanup keeps it (the check only counts colon-separated pieces), so it
is not replaced by the `08:00` default. -/
theorem normalizeTime_shape_counterexample :
    normalizeTime (some "ab:cd") "08:00" = "ab:cd" ∧
    specHHMMShape "ab:cd" = false ∧ "ab:cd" ≠ "08:00" :=
  ⟨rfl, rfl, by decide⟩

/-- The cleanup replaces a value by the default exactly when the value is one
of the exact-case sentinels (including the empty string) or does not split on
a colon into exactly two pieces (or already equals the default). -/
theorem normalizeTime_default_iff (s d : String) :
    normalizeTime (some s) d = d ↔
      (s ∈ timeSentinels ∨ (splitChar ':' s.data).length ≠ 2 ∨ s = d) := by
  unfold normalizeTime
  simp only [Option.getD_some]
  by_cases h1 : s = ""
  · subst h1
    simp [timeSentinels]
  · by_cases h2 : s ∈ timeSentinels
    · simp [h1, h2]
    · simp only [h1, h2, decide_False, Bool.or_self, Bool.false_eq_true, if_false,
        decide_True, Bool.or_false, Bool.false_or]
      by_cases h3 : (splitChar ':' s.data).length = 2
      · simp [h3, h2]
      · simp [h3, h2]

/-- Claim C8 (amended): `startTime="Unknown"` and `endTime=""` normalize to
`07:00` and `08:00`; every letter-case variant of the sentinels normalizes to
the default because it contains no colon; but a value is kept whenever it
splits on a colon into exactly two pieces, even when it is not of `HH:MM`
shape, so only the colon-count part of the shape requirement is enforced. -/
theorem normalizeTime_amended :
    (∀ s d : String, normalizeTime (some s) d = d ↔
      (s ∈ timeSentinels ∨ (splitChar ':' s.data).length ≠ 2 ∨ s = d)) ∧
    normalizeTime (some "Unknown") "07:00" = "07:00" ∧
    normalizeTime (some "") "08:00" = "08:00" ∧
    normalizeTime (some "UNKNOWN") "07:00" = "07:00" ∧
    normalizeTime (some "uNkNoWn") "07:00" = "07:00" ∧
    normalizeTime (some "N/A") "08:00" = "08:00" ∧
    normalizeTime (some "n/a") "08:00" = "08:00" ∧
    normalizeTime (some "na") "08:00" = "08:00" :=
  ⟨normalizeTime_default_iff, rfl, rfl, rfl, rfl, rfl, rfl, rfl⟩

/-- The fallback chain did not return content: a hard error or exhaustion. -/
def callFailed : CallResult → Bool
  | .success _ => false
  | .hardError _ => true
  | .exhausted _ => true

/-- Claim C10: when the model-call layer fails (hard error or exhaustion of
all candidates), `process_email_with_ai` swallows the exception and returns
the fixed error dict: `hasEvent = false`, empty `eventDetails`, and the
non-empty gist `Error processing email: <subject>`. -/
theorem processEmailWithAi_total_on_failure (aiModel : String)
    (complete : String → CallOutcome) (email : EmailData)
    (h : callFailed (callOpenai aiModel complete) = true) :
    processEmailWithAi aiModel complete email =
      [("gist", JsonValue.str ("Error processing email: " ++ email.subject)),
       ("hasEvent", JsonValue.bool false),
       ("eventDetails", JsonValue.obj [])] ∧
    ("Error processing email: " ++ email.subject) ≠ "" := by
  constructor
  · unfold processEmailWithAi
    cases hc : callOpenai aiModel complete with
    | success c => rw [hc] at h; exact absurd h (by simp [callFailed])
    | hardError e => rfl
    | exhausted le => rfl
  · exact strAppend_ne_empty_left _ _ (by decide)

/-- Completion oracle for the C10 witness: every model raises a
non-unavailable error, so the first candidate aborts the chain hard. -/
def completeC10 : String → CallOutcome := fun _ => CallOutcome.err "rate limit exceeded"

/-- Concrete email for the C10 witness. -/
def emC10 : EmailData := { subject := "Fees", sender := "admin@x.com", body := "pay" }

/-- Witness for C10 at a concrete hard failure. -/
theorem processEmailWithAi_total_on_failure_witness :
    processEmailWithAi "gpt-4o" completeC10 emC10 =
      [("gist", JsonValue.str ("Error processing email: " ++ emC10.subject)),
       ("hasEvent", JsonValue.bool false),
       ("eventDetails", JsonValue.obj [])] ∧
    ("Error processing email: " ++ emC10.subject) ≠ "" :=
  processEmailWithAi_total_on_failure "gpt-4o" completeC10 emC10 rfl

/-- Three dict-shaped event requests for C6. -/
def evA : EventDetails := { title := some "Art Fair", startDate := some "2024-06-01" }

/-- Second request of the C6 batch; its creation raises in the API. -/
def evB : EventDetails := { title := some "Bake Sale", startDate := some "2024-06-02" }

/-- Third request of the C6 batch. -/
def evC : EventDetails := { title := some "Choir", startDate := some "2024-06-03" }

/-- Calendar environment for C6: empty calendar, the insert of the second
request's event raises, the others succeed. -/
def calEnvC6 : CalEnv :=
  { available := true
    listEvents := fun _ => .ok []
    insert := fun g => if g.summary = "Bake Sale" then .error "API error" else .ok "id" }

/-- Concrete email for C6. -/
def emC6 : EmailData := { subject := "Events", sender := "school@x.com", body := "b" }

/-- Counterexample to C6 as stated: the creation of request 2 errors inside
the calendar service (last conjunct), yet the batch reports `successful = 3`
and `failed = 0`, not `successful = 2, failed = 1` — the agent layer replaces
the service's boolean by an unconditional per-item success. -/
theorem batch_creation_error_counterexample :
    ((createMultipleEvents calEnvC6 [some evA, some evB, some evC] emC6).toOption.map
        (fun b => b.successful) = some 3) ∧
    ((createMultipleEvents calEnvC6 [some evA, some evB, some evC] emC6).toOption.map
        (fun b => b.failed) = some 0) ∧
    ((createMultipleEvents calEnvC6 [some evA, some evB, some evC] emC6).toOption.map
        (fun b => b.success) = some true) ∧
    serviceCreateCalendarEvent calEnvC6 evB emC6 = false :=
  ⟨rfl, rfl, rfl, rfl⟩

/-- Claim C6 (amended): for any batch of three dict-shaped requests the
reported counts are `successful = 3`, `failed = 0` and overall success,
whatever the calendar service does: a creation error caught inside the
service only lands in the per-item `calendar_result` value, never in the
success counters. -/
theorem batch_success_counts_amended (env : CalEnv) (e1 e2 e3 : EventDetails)
    (em : EmailData) :
    ((createMultipleEvents env [some e1, some e2, some e3] em).toOption.map
        (fun b => b.successful) = some 3) ∧
    ((createMultipleEvents env [some e1, some e2, some e3] em).toOption.map
        (fun b => b.failed) = some 0) ∧
    ((createMultipleEvents env [some e1, some e2, some e3] em).toOption.map
        (fun b => b.success) = some true) ∧
    (agentCreateEventD env e2 em).success = true :=
  ⟨rfl, rfl, rfl, rfl⟩

/-- Every result dict of `process_ai_events` makes the coordinator's
`events_created` increment vanish: the paths that report creations return
dicts without the `events_created` key (so `.get("events_created", 0)` is 0)
and the only dicts carrying the key carry it as 0. -/
theorem processAiEvents_eventsCreated_getD (env : CalEnv) (a : AnalysisResultD)
    (em : EmailData) : (processAiEvents env a em).eventsCreated.getD 0 = 0 := by
  unfold processAiEvents
  by_cases h : a.hasEvent
  · simp only [h, Bool.not_true, Bool.false_eq_true, if_false]
    cases a.eventDetails with
    | invalid => rfl
    | single d => rfl
    | many evs =>
      cases hcme : createMultipleEvents env evs em with
      | ok b => simp [hcme]
      | error e => simp [hcme]
  · simp only [Bool.not_eq_true] at h
    simp [h]

/-- Environment for the second C7 conjunct: the analysis reports one event
and the calendar insert succeeds. -/
def coordEnvC7 : CoordEnv :=
  { analyze := fun _ =>
      { success := true, hasEvent := true
        eventDetails := .single { title := some "PTA Meeting", startDate := some "2024-07-01" } }
    notify := fun _ _ => true
    cal := calEnvOk }

/-- Concrete email for C7. -/
def emC7 : EmailData := { subject := "PTA", sender := "pta@x.com", body := "b" }

/-- Claim C7: the coordinator's events-created statistic never changes — on
every successful calendar path the result dict lacks the `events_created`
key, so the increment `calendar_result.get("events_created", 0)` is always 0
— even when (second and third conjuncts) the calendar step succeeds and the
service actually inserted an event. -/
theorem eventsCreated_stat_never_incremented :
    (∀ (env : CoordEnv) (e : EmailData) (n c : Bool) (st : Stats),
      (processSingleEmail env e n c st).2.eventsCreated = st.eventsCreated) ∧
    ((processSingleEmail coordEnvC7 emC7 false true ⟨0, 0, 0, 0⟩).1.calendar.map
        (fun r => r.success) = some true) ∧
    serviceCreateCalendarEvent calEnvOk
      { title := some "PTA Meeting", startDate := some "2024-07-01" } emC7 = true := by
  refine ⟨?_, rfl, rfl⟩
  intro env e n c st
  cases h : (env.analyze e).success with
  | false => simp [processSingleEmail, h]
  | true =>
    simp only [processSingleEmail, h, Bool.not_true, Bool.false_eq_true, if_false]
    by_cases hce : (c && (env.analyze e).hasEvent) = true
    · simp only [hce, if_true]
      repeat' split
      all_goals simp [processAiEvents_eventsCreated_getD]
    · simp only [if_neg hce]
      repeat' split
      all_goals simp

/-- WhatsApp configuration with every transport configured. -/
def cfgC5 : WaConfig :=
  { twilioSid := "sid", twilioAuthToken := "token"
    cmbKey := "key1", cmbPhone := "111", cmbKey2 := "key2", cmbPhone2 := "222"
    gmailUser := "me@gmail.com", gmailPassword := "pw" }

/-- WhatsApp environment for C5: the Twilio send raises; the CallMeBot
responses and the SMTP outcome are left free. -/
def waEnvC5 (cmb : String → String → Except String HttpResponse)
    (smtp : Except String Unit) : WaEnv :=
  { twilioSend := .error "twilio network error", cmbResponse := cmb, smtpSend := smtp }

/-- A CallMeBot response that the classifier accepts as queued success. -/
def cmbQueuedOk : String → String → Except String HttpResponse :=
  fun _ _ => .ok { status := 200, text := "Message queued" }

/-- Claim C5: with Twilio configured and its single attempt raising, the
cascade never reaches the CallMeBot tier — for every CallMeBot oracle the
outcome equals the email fallback's outcome (first conjunct); concretely,
with both CallMeBot pairs ready to deliver and the SMTP session failing, the
message is lost (second conjunct) although the CallMeBot tier alone would
have delivered it (third conjunct). -/
theorem twilio_exception_skips_callmebot :
    (∀ (cmb : String → String → Except String HttpResponse)
        (smtp : Except String Unit),
      sendWhatsappMessage cfgC5 (waEnvC5 cmb smtp) =
        sendEmailFallback cfgC5 (waEnvC5 cmb smtp)) ∧
    sendWhatsappMessage cfgC5 (waEnvC5 cmbQueuedOk (.error "smtp down")) = false ∧
    cmbTier cfgC5 (waEnvC5 cmbQueuedOk (.error "smtp down")) = true :=
  ⟨fun _ _ => rfl, rfl, rfl⟩
